import Mathlib

/-!
Verification of the bean resolution engine of minimalist-async-di
(src/src/container.js) through a shallow embedding.

The container is a registry of named beans: `register` stores a creator
descriptor plus dependency descriptors under a name, and `get` lazily,
asynchronously and at-most-once turns registrations into memoized values.
The embedding below models the engine as a state machine over three
association lists mirroring the three Maps of the source
(`_registrations`, `_pending`, `_beans`), with a fuel-indexed interpreter
standing in for the async recursion.  JavaScript code runs on a
single-threaded event loop, so the interpreter fixes one sequentialization
of the microtask interleavings: every started sub-resolution is run to
quiescence at its start point.  A deferred future delivered by the
`promise(name)` injector is represented by an inert token value (its later
settlement is not observed by any property proved here), and awaiting a
promise that is still in flight - which never settles within one
sequential run - is modeled as divergence (`none`).

Caller-supplied callables (factories) are opaque capabilities to the
engine; they are embedded as a small closed universe `Fn` of test
callables together with an evaluator, and a `calls` log in the state
records each invocation of a caller-supplied callable so that
at-most-once creation is observable.  Custom collection getter/setter
capabilities, `Map`-valued beans, constructor creators and the bound
injector are outside the claims considered here and are not modeled;
nested plain objects with the default getter/setter are.
-/

namespace MinimalDI

/-- Error taxonomy of the source: `BeanError` is the domain error class,
everything thrown by caller code is a plain `Error` (non-domain). -/
inductive Err where
  | beanError : String → Err
  | hostError : String → Err
deriving Repr

/-- True exactly for the domain error class (`instanceof BeanError`). -/
def Err.isBean : Err → Bool
  | .beanError _ => true
  | .hostError _ => false

/-- Message text of an error. -/
def Err.msgOf : Err → String
  | .beanError m => m
  | .hostError m => m

/-- JavaScript `e.name` of an error, used when composing wrapped messages. -/
def Err.nameOf : Err → String
  | .beanError _ => "BeanError"
  | .hostError _ => "Error"

/-- Values a bean can take.  `vobj` models a plain JavaScript object as an
ordered association list of properties.  `vfutureOf`, `vpromiserOf` and
`vseekerOf` are the capabilities delivered by the `promise`, `promiser`
and `seeker` injectors: an unsettled future for the named bean, a lazy
async getter and a best-effort synchronous getter.  They are reified as
tokens naming their target; the seeker token is given meaning by
`invokeSeeker` below. -/
inductive Value where
  | vundefined : Value
  | vstr : String → Value
  | vnat : Nat → Value
  | vobj : List (String × Value) → Value
  | vfutureOf : String → Value
  | vpromiserOf : String → Value
  | vseekerOf : String → Value
deriving Repr

/-- JavaScript truthiness for the modeled values: `undefined`, the empty
string and `0` are falsy, objects and functions are truthy. -/
def Value.truthy : Value → Bool
  | .vundefined => false
  | .vstr s => !(s == "")
  | .vnat n => !(n == 0)
  | _ => true

/-- True exactly for the absent sentinel `undefined`. -/
def Value.isUndefinedV : Value → Bool
  | .vundefined => true
  | _ => false

/-- A resolved-bean object of the source: the `{ bean, error }` records the
engine passes around and caches (`bean` is `undefined` when the field is
absent). -/
structure BeanObj where
  bean : Value
  error : Option Err
deriving Repr

/-- Closed universe of caller-supplied callables used as factories. -/
inductive Fn where
  | constFn : Value → Fn
  | projArg : Nat → Fn
  | appendTo : String → Fn
  | throwBean : String → Fn
  | throwHost : String → Fn
deriving Repr

/-- Evaluation of a caller-supplied callable on its resolved arguments. -/
def evalFn : Fn → List Value → Except Err Value
  | .constFn v, _ => .ok v
  | .projArg i, args => .ok (args.getD i .vundefined)
  | .appendTo suffix, args =>
    match args.getD 0 .vundefined with
    | .vstr s => .ok (.vstr (s ++ suffix))
    | _ => .error (.hostError "appendTo expects a string argument")
  | .throwBean m, _ => .error (.beanError m)
  | .throwHost m, _ => .error (.hostError m)

/-- Stored creator of a registration, after the normalization `register`
performs: a literal value, a captured outcome of an externally supplied
future (the source replaces the future by a catching promise fulfilling
with `{bean}` or `{error}`), or a factory callable. -/
inductive Creator where
  | value : Value → Creator
  | captured : BeanObj → Creator
  | factory : Fn → Creator
deriving Repr

/-- Dependency descriptor (injector protocol): a direct bean-name
reference, a literal, a deferred future, a lazy async getter (promiser),
or a best-effort sync getter (seeker). -/
inductive Dep where
  | ref : String → Dep
  | lit : Value → Dep
  | futureOf : String → Dep
  | promiserOf : String → Dep
  | seekerOf : String → Dep
deriving Repr

/-- A registration: the entries of the `_registrations` map. -/
structure Registration where
  name : String
  creator : Creator
  dependencies : List Dep
  children : List String
deriving Repr

/-- An entry of the `_pending` map: a shared in-flight promise, either not
yet settled or settled with an outcome (a fulfilled bean object or a
rejection). -/
inductive PendingVal where
  | unsettled : PendingVal
  | settled : Except Err BeanObj → PendingVal
deriving Repr

/-- The container state: the three maps of the source plus a log of
caller-callable invocations (observational instrumentation only). -/
structure Cstate where
  registrations : List (String × Registration)
  pending : List (String × PendingVal)
  beans : List (String × BeanObj)
  calls : List String
deriving Repr

/-- Lookup in an association list (the model of `Map#get`). -/
def lookupA {α : Type} : List (String × α) → String → Option α
  | [], _ => none
  | (k, v) :: rest, key => if k == key then some v else lookupA rest key

/-- Insert or replace in an association list (the model of `Map#set`,
which keeps the position of an existing key). -/
def insertA {α : Type} : List (String × α) → String → α → List (String × α)
  | [], key, v => [(key, v)]
  | (k, w) :: rest, key, v =>
    if k == key then (key, v) :: rest else (k, w) :: insertA rest key v

/-- Remove a key from an association list (the model of `Map#delete`). -/
def eraseA {α : Type} : List (String × α) → String → List (String × α)
  | [], _ => []
  | (k, w) :: rest, key => if k == key then rest else (k, w) :: eraseA rest key

/-- Index of the last occurrence of a character (accumulator form of
`String#lastIndexOf`). -/
def lastIdxOfAux : List Char → Char → Nat → Option Nat → Option Nat
  | [], _, _, acc => acc
  | x :: rest, c, i, acc =>
    lastIdxOfAux rest c (i + 1) (if x == c then some i else acc)

/-- Model of `String#lastIndexOf` restricted to a single character. -/
def lastIdxOf (cs : List Char) (c : Char) : Option Nat :=
  lastIdxOfAux cs c 0 none

/-- Model of `_identifyParentAndProperty`: a name ending in `]` is split at
the last `[`, otherwise at the last `.`; the source then treats an empty
parent or property string as no split at all (both are falsy). -/
def identifyParentAndProperty (name : String) : Option (String × String) :=
  let cs := name.toList
  let split :=
    match cs.getLast? with
    | some c =>
      if c == ']' then
        match lastIdxOf cs '[' with
        | none => none
        | some i => some (String.mk (cs.take i), String.mk ((cs.drop (i + 1)).dropLast))
      else
        match lastIdxOf cs '.' with
        | none => none
        | some i => some (String.mk (cs.take i), String.mk (cs.drop (i + 1)))
    | none => none
  match split with
  | none => none
  | some (parentName, propertyName) =>
    if parentName == "" || propertyName == "" then none
    else some (parentName, propertyName)

/-- Model of `defaultGetter` on the modeled values: property access on a
plain object, `undefined` on everything else. -/
def defaultGetter (v : Value) (prop : String) : Value :=
  match v with
  | .vobj fields => (lookupA fields prop).getD .vundefined
  | _ => .vundefined

/-- Model of `defaultSetter` on the modeled values: property assignment on
a plain object; assigning to a primitive throws in strict mode. -/
def defaultSetter (v : Value) (prop : String) (x : Value) : Except Err Value :=
  match v with
  | .vobj fields => .ok (.vobj (insertA fields prop x))
  | _ => .error (.hostError "cannot create a property on a primitive value")

/-- Message frame added around failures of a bean under construction. -/
def frameText (name : String) : String :=
  "while creating bean " ++ name ++ ":\n"

/-- Model of the catch block of `_createBeanForRegistration`: rewrap a
failure with the construction frame, a domain error staying a `BeanError`
and anything else staying a plain `Error`. -/
def wrapWhileCreating (name : String) (e : Err) : Err :=
  match e with
  | .beanError m => .beanError (frameText name ++ "BeanError: " ++ m)
  | .hostError m => .hostError (frameText name ++ "Error: " ++ m)

/-- Message of the missing-bean domain error. -/
def noBeanText (name : String) : String :=
  "no bean registered with name " ++ name

/-- Model of the combined failure raised when a property read finds no
literal registration and the parent chain itself failed with a domain
error. -/
def combinedNoBean (name : String) (e : Err) : Err :=
  .beanError (noBeanText name ++ " and while resolving parent:\n" ++
    e.nameOf ++ ": " ++ e.msgOf)

/-- Message of the cyclic-dependency domain error. -/
def cycleText (name : String) : String :=
  "dependency " ++ name ++ " creates a cycle"

/-- Model of the dependency mapping inside `_createBeanGivenDependencies`:
extract the values, throwing the first recorded dependency error. -/
def takeVals : List BeanObj → Except Err (List Value)
  | [] => .ok []
  | b :: rest =>
    match b.error with
    | some e => .error e
    | none => (takeVals rest).map (fun vs => b.bean :: vs)

/-- Result of `_maybeResolvePropertyOfParentBean`: no parent/property split
(`undefined` in the source), a domain error returned as a value, or a
found property object. -/
inductive PropOutcome where
  | noParent : PropOutcome
  | domainErr : Err → PropOutcome
  | found : BeanObj → PropOutcome
deriving Repr

/-- Model of `_createBeanGivenDependencies`: produce the bean object from
the creator of a registration, given the resolved dependencies.  Invoking
a caller-supplied factory is recorded in the `calls` log (it is recorded
whether the callable returns or throws, since it was invoked either
way). -/
def createBeanGivenDependencies (st : Cstate) (reg : Registration)
    (resolvedDependencies : List BeanObj) : Cstate × Except Err BeanObj :=
  match reg.creator with
  | .value v => (st, .ok ⟨v, none⟩)
  | .captured out => (st, .ok out)
  | .factory f =>
    match takeVals resolvedDependencies with
    | .error e => (st, .error e)
    | .ok args =>
      let st2 := { st with calls := st.calls ++ [reg.name] }
      match evalFn f args with
      | .ok v => (st2, .ok ⟨v, none⟩)
      | .error e => (st2, .error e)

mutual

/-- Model of `_resolveBeanNamed(name, dependants)`.  The result is `none`
when the run diverges (out of fuel, or awaiting a promise that never
settles within the sequential run), otherwise the posterior state together
with the returned bean object or the thrown error.  Note that on a thrown
creation failure the source rejects the shared pending promise and the
lines caching the bean and deleting the pending entry are skipped, so the
name stays in the pending map holding the rejected outcome. -/
def resolveBeanNamed (fuel : Nat) (st : Cstate) (name : String)
    (dependants : List String) : Option (Cstate × Except Err BeanObj) :=
  match fuel with
  | 0 => none
  | fuel + 1 =>
    if dependants.contains name then
      some (st, .error (.beanError (cycleText name)))
    else
      match lookupA st.beans name with
      | some b => some (st, .ok b)
      | none =>
        match lookupA st.pending name with
        | some (.settled out) => some (st, out)
        | some .unsettled => none
        | none =>
          match lookupA st.registrations name with
          | some reg =>
            let st1 : Cstate :=
              { st with pending := insertA st.pending name .unsettled,
                        registrations := eraseA st.registrations name }
            match createBeanForRegistration fuel st1 reg dependants with
            | none => none
            | some (st2, .ok bean) =>
              some ({ st2 with beans := insertA st2.beans name bean,
                                pending := eraseA st2.pending name }, .ok bean)
            | some (st2, .error e) =>
              some ({ st2 with
                        pending := insertA st2.pending name (.settled (.error e)) },
                    .error e)
          | none =>
            match maybeResolvePropertyOfParentBean fuel st name dependants with
            | none => none
            | some (st2, .error e) => some (st2, .error e)
            | some (st2, .ok (.domainErr e)) =>
              some (st2, .error (combinedNoBean name e))
            | some (st2, .ok .noParent) =>
              some (st2, .error (.beanError (noBeanText name)))
            | some (st2, .ok (.found b)) => some (st2, .ok b)

/-- Model of `_maybeResolvePropertyOfParentBean(name, dependants)`: split
the name, resolve the parent under the same dependant path, and read the
property with the getter capability.  A `BeanError` (from the parent
resolution or recorded on the parent outcome) is returned as a value to
be combined by the caller; any other error propagates as thrown. -/
def maybeResolvePropertyOfParentBean (fuel : Nat) (st : Cstate) (name : String)
    (dependants : List String) : Option (Cstate × Except Err PropOutcome) :=
  match fuel with
  | 0 => none
  | fuel + 1 =>
    match identifyParentAndProperty name with
    | none => some (st, .ok .noParent)
    | some (parentName, propertyName) =>
      match resolveBeanNamed fuel st parentName dependants with
      | none => none
      | some (st2, .error e) =>
        if e.isBean then some (st2, .ok (.domainErr e)) else some (st2, .error e)
      | some (st2, .ok parent) =>
        match parent.error with
        | some pe =>
          if pe.isBean then some (st2, .ok (.domainErr pe))
          else some (st2, .error pe)
        | none =>
          some (st2, .ok (.found ⟨defaultGetter parent.bean propertyName, none⟩))

/-- Model of `_createBeanForRegistration(registration, dependants)`:
resolve the dependencies under the extended dependant path, build the bean
through the creator, apply the queued children when the value is truthy
and unfailed, and rewrap any thrown failure with the construction frame.
A child creation failure is recorded on the outcome by the child handler
and does not reach the catch, so it is not rewrapped here. -/
def createBeanForRegistration (fuel : Nat) (st : Cstate) (reg : Registration)
    (dependants : List String) : Option (Cstate × Except Err BeanObj) :=
  match fuel with
  | 0 => none
  | fuel + 1 =>
    let dependencyDependants := dependants ++ [reg.name]
    match resolveDeps fuel st reg.dependencies dependencyDependants with
    | none => none
    | some (st2, .error e) => some (st2, .error (wrapWhileCreating reg.name e))
    | some (st2, .ok resolvedDependencies) =>
      match createBeanGivenDependencies st2 reg resolvedDependencies with
      | (st3, .error e) => some (st3, .error (wrapWhileCreating reg.name e))
      | (st3, .ok bean) =>
        if bean.bean.truthy && bean.error.isNone then
          match applyChildren fuel st3 reg.children bean with
          | none => none
          | some (st4, .error e) => some (st4, .error (wrapWhileCreating reg.name e))
          | some (st4, .ok bean2) => some (st4, .ok bean2)
        else
          some (st3, .ok bean)

/-- Sequentialization of the dependency fan-out
`Promise.all(dependencies.map(resolveDependency))`: every dependency
resolution runs (all are started by the `map` in the source before any is
awaited), and the first rejection in run order wins. -/
def resolveDeps (fuel : Nat) (st : Cstate) (deps : List Dep)
    (dependants : List String) : Option (Cstate × Except Err (List BeanObj)) :=
  match fuel with
  | 0 => none
  | fuel + 1 =>
    match deps with
    | [] => some (st, .ok [])
    | d :: rest =>
      match resolveDependency fuel st d dependants with
      | none => none
      | some (st2, .error e) =>
        match resolveDeps fuel st2 rest dependants with
        | none => none
        | some (st3, _) => some (st3, .error e)
      | some (st2, .ok b) =>
        match resolveDeps fuel st2 rest dependants with
        | none => none
        | some (st3, .error e) => some (st3, .error e)
        | some (st3, .ok bs) => some (st3, .ok (b :: bs))

/-- Model of `_resolveDependency(config, dependants)`.  A direct reference
resolves under the threaded dependant path.  A deferred future immediately
delivers an unsettled future token for a resolution of the target under a
fresh empty dependant path; in the source that fresh resolution is started
at once and runs interleaved with the dependant construction (parking on
any in-flight promise it meets), and since its settlement is not observed
by any property proved here, the sequential model defers it - a later
retrieval of the target produces the same memoized outcome.  A promiser
delivers a lazy thunk token and a seeker a cache-probe token, neither
resolving anything. -/
def resolveDependency (fuel : Nat) (st : Cstate) (config : Dep)
    (dependants : List String) : Option (Cstate × Except Err BeanObj) :=
  match fuel with
  | 0 => none
  | fuel + 1 =>
    match config with
    | .ref name => resolveBeanNamed fuel st name dependants
    | .lit v => some (st, .ok ⟨v, none⟩)
    | .futureOf name => some (st, .ok ⟨.vfutureOf name, none⟩)
    | .promiserOf name => some (st, .ok ⟨.vpromiserOf name, none⟩)
    | .seekerOf name => some (st, .ok ⟨.vseekerOf name, none⟩)

/-- Sequentialization of the queued-children fan-out of
`_createBeanForRegistration`: each child is retrieved with a fresh
dependant path (`this.get`); a child failure is recorded on the parent
outcome unless one is already recorded, and the setter runs only while no
failure is recorded; a setter throw rejects the fan-out itself. -/
def applyChildren (fuel : Nat) (st : Cstate) (children : List String)
    (bean : BeanObj) : Option (Cstate × Except Err BeanObj) :=
  match fuel with
  | 0 => none
  | fuel + 1 =>
    match children with
    | [] => some (st, .ok bean)
    | childName :: rest =>
      match resolveBeanNamed fuel st childName [] with
      | none => none
      | some (st2, r) =>
        let step : Except Err BeanObj :=
          match r with
          | .error e => .error e
          | .ok cb =>
            match cb.error with
            | some e => .error e
            | none => .ok cb
        match step with
        | .error e =>
          let bean2 := if bean.error.isSome then bean else { bean with error := some e }
          applyChildren fuel st2 rest bean2
        | .ok cb =>
          if bean.error.isSome then
            applyChildren fuel st2 rest bean
          else
            match identifyParentAndProperty childName with
            | none => applyChildren fuel st2 rest bean
            | some (_, propertyName) =>
              match defaultSetter bean.bean propertyName cb.bean with
              | .ok newVal => applyChildren fuel st2 rest { bean with bean := newVal }
              | .error e => some (st2, .error e)

end

/-- Model of `Container#get(name)`: resolve with an empty dependant path,
then either deliver the value or throw the recorded or thrown error. -/
def getBean (fuel : Nat) (st : Cstate) (name : String) :
    Option (Cstate × Except Err Value) :=
  match resolveBeanNamed fuel st name [] with
  | none => none
  | some (st2, .error e) => some (st2, .error e)
  | some (st2, .ok b) =>
    match b.error with
    | some e => some (st2, .error e)
    | none => some (st2, .ok b.bean)

/-- Model of invoking the zero-argument callable delivered by the seeker
injector (the closure of `_resolveDependency` over `_beans`): the value
field of the cached outcome when the name is in the resolved store,
`undefined` otherwise.  It is a pure probe of the state: by its type it
neither changes the state nor starts a resolution. -/
def invokeSeeker (st : Cstate) (name : String) : Value :=
  match lookupA st.beans name with
  | some b => b.bean
  | none => .vundefined

/-- Model of the first branch of `_maybeRegisterInParentBean`: a parent
that resolved successfully to a truthy value is reopened to pending by
wrapping its cached outcome in an already-resolved promise; a parent that
resolved falsy or failed is left alone (the source returns early then,
and the later branches cannot match either since the name was in the
resolved store). -/
def reopenResolvedParent (st : Cstate) (parentName : String) : Cstate :=
  match lookupA st.beans parentName with
  | some createdBean =>
    if createdBean.bean.truthy && createdBean.error.isNone then
      { st with beans := eraseA st.beans parentName,
                pending := insertA st.pending parentName (.settled (.ok createdBean)) }
    else st
  | none => st

/-- Model of `_maybeRegisterInParentBean(name)`: link a freshly registered
property name to its parent.  A resolved parent is reopened to pending; a
pending parent has the property mutation chained onto its promise (the
child retrieval `this.get(name)` is started at once, so the sequential
model runs it here); a registered parent queues the name on its children
list; an unregistered parent leaves the registration orphaned.  Chaining
onto a parent promise that is still unsettled cannot complete within a
sequential run and is modeled as divergence. -/
def maybeRegisterInParentBean (fuel : Nat) (st : Cstate) (name : String) :
    Option Cstate :=
  match identifyParentAndProperty name with
  | none => some st
  | some (parentName, propertyName) =>
    let st := reopenResolvedParent st parentName
    match lookupA st.pending parentName with
    | some p =>
      match resolveBeanNamed fuel st name [] with
      | none => none
      | some (st2, childR) =>
        match p with
        | .unsettled => none
        | .settled (.error e) =>
          some { st2 with pending := insertA st2.pending parentName (.settled (.error e)) }
        | .settled (.ok resolvedBean) =>
          if resolvedBean.bean.truthy && resolvedBean.error.isNone then
            let newPending : PendingVal :=
              match childR with
              | .error e => .settled (.ok { resolvedBean with error := some e })
              | .ok cb =>
                match cb.error with
                | some e => .settled (.ok { resolvedBean with error := some e })
                | none =>
                  match defaultSetter resolvedBean.bean propertyName cb.bean with
                  | .ok newVal => .settled (.ok { resolvedBean with bean := newVal })
                  | .error se => .settled (.error se)
            some { st2 with pending := insertA st2.pending parentName newPending }
          else
            some { st2 with
                    pending := insertA st2.pending parentName (.settled (.ok resolvedBean)) }
    | none =>
      match lookupA st.registrations parentName with
      | some reg =>
        some { st with
                registrations := insertA st.registrations parentName
                  { reg with children := reg.children ++ [name] } }
      | none => some st

/-- Model of `_register`: fail when the name exists in any of the three
stores, otherwise install the registration with an empty children list
and run the parent linking. -/
def registerPlain (fuel : Nat) (st : Cstate) (name : String) (creator : Creator)
    (dependencies : List Dep) : Option (Except Err Cstate) :=
  if (lookupA st.registrations name).isSome || (lookupA st.beans name).isSome ||
      (lookupA st.pending name).isSome then
    some (.error (.beanError (name ++ " already registered")))
  else
    let st1 := { st with
      registrations := insertA st.registrations name ⟨name, creator, dependencies, []⟩ }
    match maybeRegisterInParentBean fuel st1 name with
    | none => none
    | some st2 => some (.ok st2)

/-- Model of `_replace`: only a still-registered name is replaceable; with
a retained name the displaced registration is first moved verbatim
(renamed) to the retained name and re-linked into the retained name's
parent chain, then the new registration with an empty children list
overwrites the original key. -/
def replaceReg (fuel : Nat) (st : Cstate) (name : String)
    (retainedName : Option String) (creator : Creator) (dependencies : List Dep) :
    Option (Except Err Cstate) :=
  if (lookupA st.beans name).isSome || (lookupA st.pending name).isSome then
    some (.error (.beanError ("cannot replace already-created bean " ++ name)))
  else
    match lookupA st.registrations name with
    | none => some (.error (.beanError ("bean " ++ name ++ " to replace does not exist")))
    | some retainedRegistration =>
      let afterRetain : Option Cstate :=
        match retainedName with
        | none => some st
        | some rn =>
          let moved := { retainedRegistration with name := rn }
          let st1 := { st with registrations := insertA st.registrations rn moved }
          maybeRegisterInParentBean fuel st1 rn
      match afterRetain with
      | none => none
      | some st2 =>
        some (.ok { st2 with
          registrations := insertA st2.registrations name ⟨name, creator, dependencies, []⟩ })

/-- Registration target given to `register`: a plain bean name or a
`replacement(name, retainedName?)` specifier. -/
inductive SpecifierIn where
  | plain : String → SpecifierIn
  | replacementOf : String → Option String → SpecifierIn
deriving Repr

/-- Creator argument given to `register`, before normalization: a bare
bean name used as an alias, a pre-created value, an externally supplied
(here already-settled) future, or a factory callable. -/
inductive CreatorIn where
  | aliasOf : String → CreatorIn
  | valueOf : Value → CreatorIn
  | promiseOf : Except Err Value → CreatorIn
  | factoryOf : Fn → CreatorIn
deriving Repr

/-- Model of the creator normalization in `Container#register`: an alias
becomes an identity factory with the aliased name as sole dependency, and
value/promise creators reject dependencies; an externally supplied future
is captured as a `{bean}` or `{error}` outcome by the catching promise. -/
def normalizeCreator : CreatorIn → List Dep → Except Err (Creator × List Dep)
  | .aliasOf aliasName, deps =>
    if deps.isEmpty then .ok (.factory (.projArg 0), [.ref aliasName])
    else .error (.beanError "aliases cannot have dependencies")
  | .valueOf v, deps =>
    if deps.isEmpty then .ok (.value v, deps)
    else .error (.beanError "pre-created beans cannot have dependencies")
  | .promiseOf r, deps =>
    if deps.isEmpty then
      .ok (.captured (match r with
        | .ok v => ⟨v, none⟩
        | .error e => ⟨.vundefined, some e⟩), deps)
    else .error (.beanError "promised beans cannot have dependencies")
  | .factoryOf f, deps => .ok (.factory f, deps)

/-- Model of `Container#register(specifier, creator, ...dependencies)`:
normalize the creator, then dispatch to replacement or plain
registration.  Malformed-shape errors are ruled out by typing. -/
def registerBean (fuel : Nat) (st : Cstate) (specifier : SpecifierIn)
    (creator : CreatorIn) (dependencies : List Dep) : Option (Except Err Cstate) :=
  match normalizeCreator creator dependencies with
  | .error e => some (.error e)
  | .ok (c, deps) =>
    match specifier with
    | .plain name => registerPlain fuel st name c deps
    | .replacementOf name retained => replaceReg fuel st name retained c deps

/-- The freshly constructed container. -/
def emptyContainer : Cstate := ⟨[], [], [], []⟩

/-- Scenario combinator: perform a successful registration, collapsing a
synchronous registration error or divergence to `none`. -/
def andRegister (o : Option Cstate) (specifier : SpecifierIn) (creator : CreatorIn)
    (dependencies : List Dep) : Option Cstate :=
  o.bind fun st =>
    match registerBean 100 st specifier creator dependencies with
    | some (.ok st2) => some st2
    | _ => none

/-- Outcome of a `get` on a scenario state: the delivered value or the
thrown error (with fixed ample fuel). -/
def getOutcome (o : Option Cstate) (name : String) : Option (Except Err Value) :=
  o.bind fun st => (getBean 100 st name).map fun p => p.2

/-- State after a `get` on a scenario state has run to quiescence. -/
def afterGet (o : Option Cstate) (name : String) : Option Cstate :=
  o.bind fun st => (getBean 100 st name).map fun p => p.1

/-- The log of caller-callable invocations of a scenario state. -/
def callsOf (o : Option Cstate) : Option (List String) := o.map fun st => st.calls

/-- Whether a name is in the resolved store of a scenario state. -/
def beansHas (o : Option Cstate) (name : String) : Option Bool :=
  o.map fun st => (lookupA st.beans name).isSome

/-- Whether a name is in the pending store of a scenario state. -/
def pendingHas (o : Option Cstate) (name : String) : Option Bool :=
  o.map fun st => (lookupA st.pending name).isSome

/-- Whether a name is in the registration store of a scenario state. -/
def registrationsHas (o : Option Cstate) (name : String) : Option Bool :=
  o.map fun st => (lookupA st.registrations name).isSome

/-- Probe of the seeker callable against a scenario state. -/
def seekProbe (o : Option Cstate) (name : String) : Option Value :=
  o.map fun st => invokeSeeker st name

/-- Whether an outcome is a thrown domain error. -/
def isBeanFailure : Option (Except Err Value) → Bool
  | some (.error e) => e.isBean
  | _ => false

/-- Whether an outcome is a thrown non-domain error. -/
def isHostFailure : Option (Except Err Value) → Bool
  | some (.error e) => !e.isBean
  | _ => false

/-- Whether an outcome is a delivered value. -/
def isOkOutcome : Option (Except Err Value) → Bool
  | some (.ok _) => true
  | _ => false

/-- Message of a thrown outcome. -/
def failureMessage : Option (Except Err Value) → Option String
  | some (.error e) => some e.msgOf
  | _ => none

/-- Boolean list-prefix test, used to inspect error messages. -/
def listIsPrefix : List Char → List Char → Bool
  | [], _ => true
  | _ :: _, [] => false
  | a :: as, b :: bs => a == b && listIsPrefix as bs

/-- Two-bean cycle over direct references: `a` depends on `b` and `b`
depends on `a`, both as bare names. -/
def cycle2Direct : Option Cstate :=
  let s1 := andRegister (some emptyContainer) (.plain "a")
    (.factoryOf (.constFn (.vstr "A"))) [.ref "b"]
  andRegister s1 (.plain "b") (.factoryOf (.constFn (.vstr "B"))) [.ref "a"]

/-- The same two-bean cycle with the edge from `b` to `a` replaced by a
lazy-getter (promiser) injection. -/
def cycle2Promiser : Option Cstate :=
  let s1 := andRegister (some emptyContainer) (.plain "a")
    (.factoryOf (.constFn (.vstr "A"))) [.ref "b"]
  andRegister s1 (.plain "b") (.factoryOf (.constFn (.vstr "B"))) [.promiserOf "a"]

/-- The same two-bean cycle with the edge from `b` to `a` replaced by a
deferred-future injection. -/
def cycle2Future : Option Cstate :=
  let s1 := andRegister (some emptyContainer) (.plain "a")
    (.factoryOf (.constFn (.vstr "A"))) [.ref "b"]
  andRegister s1 (.plain "b") (.factoryOf (.constFn (.vstr "B"))) [.futureOf "a"]

/-- Three-bean cycle over direct references. -/
def cycle3Direct : Option Cstate :=
  let s1 := andRegister (some emptyContainer) (.plain "a")
    (.factoryOf (.constFn (.vstr "A"))) [.ref "b"]
  let s2 := andRegister s1 (.plain "b") (.factoryOf (.constFn (.vstr "B"))) [.ref "c"]
  andRegister s2 (.plain "c") (.factoryOf (.constFn (.vstr "C"))) [.ref "a"]

/-- The three-bean cycle broken by one promiser edge. -/
def cycle3Promiser : Option Cstate :=
  let s1 := andRegister (some emptyContainer) (.plain "a")
    (.factoryOf (.constFn (.vstr "A"))) [.ref "b"]
  let s2 := andRegister s1 (.plain "b") (.factoryOf (.constFn (.vstr "B"))) [.ref "c"]
  andRegister s2 (.plain "c") (.factoryOf (.constFn (.vstr "C"))) [.promiserOf "a"]

/-- A single factory bean that succeeds, for memoization scenarios. -/
def memoScenario : Option Cstate :=
  andRegister (some emptyContainer) (.plain "t") (.factoryOf (.constFn (.vstr "V"))) []

/-- A single factory bean whose caller-supplied callable throws. -/
def throwScenario : Option Cstate :=
  andRegister (some emptyContainer) (.plain "t") (.factoryOf (.throwHost "boom")) []

/-- A bean created from an externally supplied future that failed; the
failure is captured as an `{error}` outcome by the catching promise. -/
def futureFailScenario : Option Cstate :=
  andRegister (some emptyContainer) (.plain "t")
    (.promiseOf (.error (.hostError "future boom"))) []

/-- Child property registered before its parent exists. -/
def childFirst : Option Cstate :=
  let s1 := andRegister (some emptyContainer) (.plain "a.b") (.valueOf (.vstr "x")) []
  andRegister s1 (.plain "a") (.valueOf (.vobj [])) []

/-- Parent registered before its child property. -/
def parentFirst : Option Cstate :=
  let s1 := andRegister (some emptyContainer) (.plain "a") (.valueOf (.vobj [])) []
  andRegister s1 (.plain "a.b") (.valueOf (.vstr "x")) []

/-- The replacement scenario of the spec: `foo` holds `v1`, then a
replacement retains the original under `orig` and patches it with a
factory depending on `orig`. -/
def sec8Scenario : Option Cstate :=
  let s1 := andRegister (some emptyContainer) (.plain "foo") (.valueOf (.vstr "v1")) []
  andRegister s1 (.replacementOf "foo" (some "orig"))
    (.factoryOf (.appendTo "-patched")) [.ref "orig"]

/-- Replacement of a collection with queued children: the children move
with the retained registration, the new registration starts with none. -/
def retainChildrenScenario : Option Cstate :=
  let s1 := andRegister (some emptyContainer) (.plain "foo") (.valueOf (.vobj [])) []
  let s2 := andRegister s1 (.plain "foo.bar") (.valueOf (.vstr "baz")) []
  andRegister s2 (.replacementOf "foo" (some "orig")) (.valueOf (.vstr "new")) []

/-- Attempted replacement of a name that was never registered. -/
def replaceUnregistered : Option (Except Err Cstate) :=
  registerBean 100 emptyContainer (.replacementOf "foo" none) (.valueOf (.vstr "z")) []

/-- Attempted replacement of a name that already resolved. -/
def replaceResolved : Option (Except Err Cstate) :=
  (afterGet (andRegister (some emptyContainer) (.plain "foo")
      (.valueOf (.vstr "v1")) []) "foo").bind
    fun st => registerBean 100 st (.replacementOf "foo" none) (.valueOf (.vstr "z")) []

/-- Attempted replacement of a name whose pending entry persists (after a
thrown creation failure the name stays in the pending store). -/
def replacePending : Option (Except Err Cstate) :=
  (afterGet throwScenario "t").bind
    fun st => registerBean 100 st (.replacementOf "t" none) (.valueOf (.vstr "z")) []

/-- A parent whose queued child property fails during creation with a
caller-code error. -/
def childFailScenario : Option Cstate :=
  let s1 := andRegister (some emptyContainer) (.plain "p")
    (.factoryOf (.constFn (.vobj []))) []
  andRegister s1 (.plain "p.c") (.factoryOf (.throwHost "bummer")) []

/-- A parent whose queued child property fails with a domain error (the
child depends on a missing bean). -/
def childFailDomainScenario : Option Cstate :=
  let s1 := andRegister (some emptyContainer) (.plain "p")
    (.factoryOf (.constFn (.vobj []))) []
  andRegister s1 (.plain "p.c") (.factoryOf (.constFn (.vstr "c"))) [.ref "missing"]

/-- Dependency chain `a -> b` where the factory of `b` throws a
caller-code error, for frame-wrapping scenarios. -/
def depChainHost : Option Cstate :=
  let s1 := andRegister (some emptyContainer) (.plain "a")
    (.factoryOf (.constFn (.vstr "A"))) [.ref "b"]
  andRegister s1 (.plain "b") (.factoryOf (.throwHost "boom")) []

/-- Dependency chain `a -> b -> c` where `c` was never registered, for
domain-error frame-wrapping scenarios. -/
def depChainBean : Option Cstate :=
  let s1 := andRegister (some emptyContainer) (.plain "a")
    (.factoryOf (.constFn (.vstr "A"))) [.ref "b"]
  andRegister s1 (.plain "b") (.factoryOf (.constFn (.vstr "B"))) [.ref "c"]

/-- A registered parent whose factory throws a caller-code error, for the
unwrapped parent-chain propagation scenario. -/
def hostFailParent : Option Cstate :=
  andRegister (some emptyContainer) (.plain "p") (.factoryOf (.throwHost "boom")) []

/-- A target bean plus a bean receiving a seeker for it and returning the
delivered callable itself. -/
def seekerScenario : Option Cstate :=
  let s1 := andRegister (some emptyContainer) (.plain "t")
    (.factoryOf (.constFn (.vstr "tv"))) []
  andRegister s1 (.plain "s") (.factoryOf (.projArg 0)) [.seekerOf "t"]

/-- A resolved object bean with one property, for property reads that
find no literal registration. -/
def propMissScenario : Option Cstate :=
  andRegister (some emptyContainer) (.plain "a")
    (.valueOf (.vobj [("y", .vstr "1")])) []

/-- Queued children list of a still-registered name of a scenario state. -/
def childrenOf (o : Option Cstate) (name : String) : Option (Option (List String)) :=
  o.map fun st => (lookupA st.registrations name).map fun r => r.children

/-- A concrete cached bean object, for witness instantiations. -/
def wBean : BeanObj := ⟨.vstr "w", none⟩

/-- A concrete state with one resolved bean, for witness instantiations. -/
def wBeansState : Cstate := ⟨[], [], [("w", wBean)], []⟩

/-- A concrete state with one settled-rejected pending entry, for witness
instantiations. -/
def wPendState : Cstate := ⟨[], [("w", .settled (.error (.hostError "m")))], [], []⟩

/-- C1: a registered dependency cycle whose edges are all direct bare-name
references makes `get` fail on every participant with a cyclic-dependency
domain error, shown for cycles of length 2 and 3; the same cycles with one
edge replaced by a deferred-future or a lazy-getter (promiser) injection
succeed on every participant, because those injector kinds resolve their
target under a fresh empty dependant path. -/
theorem direct_cycles_fail_lazy_edges_break :
    isBeanFailure (getOutcome cycle2Direct "a") = true ∧
    isBeanFailure (getOutcome cycle2Direct "b") = true ∧
    isBeanFailure (getOutcome cycle3Direct "a") = true ∧
    isBeanFailure (getOutcome cycle3Direct "b") = true ∧
    isBeanFailure (getOutcome cycle3Direct "c") = true ∧
    getOutcome cycle2Promiser "a" = some (.ok (.vstr "A")) ∧
    getOutcome cycle2Promiser "b" = some (.ok (.vstr "B")) ∧
    getOutcome cycle2Future "a" = some (.ok (.vstr "A")) ∧
    getOutcome cycle2Future "b" = some (.ok (.vstr "B")) ∧
    getOutcome cycle3Promiser "a" = some (.ok (.vstr "A")) ∧
    getOutcome cycle3Promiser "b" = some (.ok (.vstr "B")) ∧
    getOutcome cycle3Promiser "c" = some (.ok (.vstr "C")) :=
  ⟨rfl, rfl, rfl, rfl, rfl, rfl, rfl, rfl, rfl, rfl, rfl, rfl⟩

/-- C2: once an outcome for a name exists it is permanent - a resolution
finding the name in the resolved store, or finding a settled pending
entry, returns that very outcome and leaves the state (hence the
invocation log) unchanged; concretely, repeated `get` of a succeeding
bean returns the same value and of a failing bean the same error, with
the caller-supplied creator invoked exactly once over both calls. -/
theorem outcomes_memoized_creator_at_most_once :
    (∀ (st : Cstate) (name : String) (b : BeanObj) (fuel : Nat),
      lookupA st.beans name = some b →
      resolveBeanNamed (fuel + 1) st name [] = some (st, .ok b)) ∧
    (∀ (st : Cstate) (name : String) (out : Except Err BeanObj) (fuel : Nat),
      lookupA st.beans name = none →
      lookupA st.pending name = some (.settled out) →
      resolveBeanNamed (fuel + 1) st name [] = some (st, out)) ∧
    getOutcome memoScenario "t" = some (.ok (.vstr "V")) ∧
    getOutcome (afterGet memoScenario "t") "t" = some (.ok (.vstr "V")) ∧
    callsOf (afterGet (afterGet memoScenario "t") "t") = some ["t"] ∧
    isHostFailure (getOutcome throwScenario "t") = true ∧
    getOutcome (afterGet throwScenario "t") "t" = getOutcome throwScenario "t" ∧
    callsOf (afterGet (afterGet throwScenario "t") "t") = some ["t"] := by
  refine ⟨?cached, ?settled, rfl, rfl, rfl, rfl, rfl, rfl⟩
  · intro st name b fuel h
    simp [resolveBeanNamed, h]
  · intro st name out fuel h1 h2
    simp [resolveBeanNamed, h1, h2]

/-- Closed instantiation of the memoization theorem at concrete cached
and settled-pending states. -/
theorem outcomes_memoized_witness :
    resolveBeanNamed 3 wBeansState "w" [] = some (wBeansState, .ok wBean) ∧
    resolveBeanNamed 3 wPendState "w" [] =
      some (wPendState, .error (.hostError "m")) :=
  ⟨outcomes_memoized_creator_at_most_once.1 wBeansState "w" wBean 2 rfl,
   outcomes_memoized_creator_at_most_once.2.1 wPendState "w"
     (.error (.hostError "m")) 2 rfl rfl⟩

/-- C3 counterexample: a resolution attempt that runs to completion with a
thrown failure (here the caller-supplied factory throws) does not put the
name into the resolved-beans store and does not remove its pending entry,
contradicting the claim that every completed attempt leaves the name in
exactly the Resolved state. -/
theorem resolved_state_after_failure_counterexample :
    isHostFailure (getOutcome throwScenario "t") = true ∧
    beansHas (afterGet throwScenario "t") "t" = some false ∧
    pendingHas (afterGet throwScenario "t") "t" = some true :=
  ⟨rfl, rfl, rfl⟩

/-- C3 amended: a resolution attempt that completes with a fulfilled bean
object - a success, or a failure captured as an `{error}` outcome such as
a failed external future - is cached in the resolved store and the pending
entry is cleared, leaving the name exactly Resolved; an attempt that
completes by throwing leaves the name Pending forever, its entry holding
the rejected outcome, which still memoizes the failure for later `get`
calls. -/
theorem outcome_caching_states :
    beansHas (afterGet memoScenario "t") "t" = some true ∧
    pendingHas (afterGet memoScenario "t") "t" = some false ∧
    registrationsHas (afterGet memoScenario "t") "t" = some false ∧
    isHostFailure (getOutcome futureFailScenario "t") = true ∧
    beansHas (afterGet futureFailScenario "t") "t" = some true ∧
    pendingHas (afterGet futureFailScenario "t") "t" = some false ∧
    isHostFailure (getOutcome throwScenario "t") = true ∧
    beansHas (afterGet throwScenario "t") "t" = some false ∧
    pendingHas (afterGet throwScenario "t") "t" = some true ∧
    registrationsHas (afterGet throwScenario "t") "t" = some false ∧
    getOutcome (afterGet throwScenario "t") "t" = getOutcome throwScenario "t" :=
  ⟨rfl, rfl, rfl, rfl, rfl, rfl, rfl, rfl, rfl, rfl, rfl⟩

/-- C4 counterexample: with the child registered before its parent
(`register "a.b" (value x)` then `register "a" (value {})`), `get "a"`
yields the empty object - its `b` property is the absent sentinel, not
`x` - refuting the claimed round trip for this registration order. -/
theorem child_first_roundtrip_counterexample :
    getOutcome childFirst "a" = some (.ok (.vobj [])) ∧
    defaultGetter (.vobj []) "b" = .vundefined ∧
    getOutcome childFirst "a.b" = some (.ok (.vstr "x")) :=
  ⟨rfl, rfl, rfl⟩

/-- C4 amended: the round trip holds with the parent registered before the
child: after `register "a" (value {})` then `register "a.b" (value x)`,
`get "a"` yields an object whose `b` property equals `x`, and `get "a.b"`
yields `x`. -/
theorem parent_first_roundtrip :
    getOutcome parentFirst "a" = some (.ok (.vobj [("b", .vstr "x")])) ∧
    getOutcome parentFirst "a.b" = some (.ok (.vstr "x")) :=
  ⟨rfl, rfl⟩

/-- C5: a property registration whose parent is unregistered at
registration time is permanently orphaned - the later registration of the
parent does not attach it, so `get "a"` yields an object without a `b`
property (in either order of the two retrievals) while `get "a.b"` still
yields `x` directly from its own registration. -/
theorem orphaned_child_permanent :
    getOutcome childFirst "a" = some (.ok (.vobj [])) ∧
    getOutcome childFirst "a.b" = some (.ok (.vstr "x")) ∧
    getOutcome (afterGet childFirst "a") "a.b" = some (.ok (.vstr "x")) ∧
    getOutcome (afterGet childFirst "a.b") "a" = some (.ok (.vobj [])) :=
  ⟨rfl, rfl, rfl, rfl⟩

/-- C6: a name that was never registered and has no parent/property split
fails with the missing-bean domain error; a property name whose
parent-chain lookup fails with a domain error fails with the combined
missing-bean domain error; and a parent chain failing for a non-domain
reason propagates that error unwrapped - the outcome of `get "p.q"` is
exactly the outcome of `get "p"`, still classified non-domain. -/
theorem missing_bean_error_classification :
    getOutcome (some emptyContainer) "foo" =
      some (.error (.beanError (noBeanText "foo"))) ∧
    getOutcome (some emptyContainer) "p.q" =
      some (.error (combinedNoBean "p.q" (.beanError (noBeanText "p")))) ∧
    isBeanFailure (getOutcome (some emptyContainer) "p.q") = true ∧
    getOutcome hostFailParent "p.q" = getOutcome hostFailParent "p" ∧
    isHostFailure (getOutcome hostFailParent "p.q") = true :=
  ⟨rfl, rfl, rfl, rfl, rfl⟩

/-- C7: replacement fails synchronously with a domain error when the
target is unregistered, already resolved, or in the pending store, and
only a still-registered entry is replaceable; with a retained name the
displaced registration moves verbatim - dependency list and queued
children included - to the retained name while the new registration
starts with an empty children list, so in the replacement scenario
`get "orig"` yields `v1` and `get "foo"` yields `v1-patched`, and in the
collection scenario the queued child follows the retained registration. -/
theorem replacement_semantics :
    getOutcome sec8Scenario "orig" = some (.ok (.vstr "v1")) ∧
    getOutcome sec8Scenario "foo" = some (.ok (.vstr "v1-patched")) ∧
    childrenOf retainChildrenScenario "orig" = some (some ["foo.bar"]) ∧
    childrenOf retainChildrenScenario "foo" = some (some []) ∧
    getOutcome retainChildrenScenario "orig" =
      some (.ok (.vobj [("bar", .vstr "baz")])) ∧
    getOutcome retainChildrenScenario "foo" = some (.ok (.vstr "new")) ∧
    replaceUnregistered =
      some (.error (.beanError "bean foo to replace does not exist")) ∧
    replaceResolved =
      some (.error (.beanError "cannot replace already-created bean foo")) ∧
    replacePending =
      some (.error (.beanError "cannot replace already-created bean t")) :=
  ⟨rfl, rfl, rfl, rfl, rfl, rfl, rfl, rfl, rfl⟩

/-- C8 counterexample: a child-property creation failure is recorded on
the parent outcome without passing the parent construction frame, so the
error a caller receives for `p` carries only the frame of `p.c` - the
message does not begin with the frame of `p` - refuting the claim that
every failure caught while building a bean is re-raised wrapped with that
bean frame. -/
theorem child_failure_not_rewrapped_counterexample :
    getOutcome childFailScenario "p" =
      some (.error (.hostError (frameText "p.c" ++ "Error: " ++ "bummer"))) ∧
    (failureMessage (getOutcome childFailScenario "p")).map
      (fun m => listIsPrefix (frameText "p").toList m.toList) = some false :=
  ⟨rfl, rfl⟩

/-- C8 amended: the construction-frame wrapping preserves classification
for every error - a domain error stays a `BeanError` and a non-domain
error stays a plain error - and failures that reach the registration
catch (dependency and creator failures) are rewrapped at each enclosing
frame, shown for two nested frames of each class; a child-property
creation failure is recorded on the parent outcome unmodified (carrying
only the frames up to the child), still keeping its classification. -/
theorem failure_wrapping_preserves_classification :
    (∀ (name : String) (e : Err), (wrapWhileCreating name e).isBean = e.isBean) ∧
    getOutcome depChainHost "a" =
      some (.error (.hostError (frameText "a" ++ "Error: " ++
        (frameText "b" ++ "Error: " ++ "boom")))) ∧
    getOutcome depChainBean "a" =
      some (.error (.beanError (frameText "a" ++ "BeanError: " ++
        (frameText "b" ++ "BeanError: " ++ noBeanText "c")))) ∧
    isHostFailure (getOutcome childFailScenario "p") = true ∧
    isBeanFailure (getOutcome childFailDomainScenario "p") = true := by
  refine ⟨?wrap, rfl, rfl, rfl, rfl⟩
  intro name e
  cases e <;> rfl

/-- C9 counterexample: after a parent whose queued child failed during
creation, the parent did not complete construction successfully (its
`get` fails), yet its outcome is cached and the seeker callable returns
the partially built object instead of the absent sentinel, refuting the
claim that the seeker returns `undefined` whenever the target has not
completed construction successfully. -/
theorem seeker_after_failed_construction_counterexample :
    isHostFailure (getOutcome childFailScenario "p") = true ∧
    seekProbe (afterGet childFailScenario "p") "p" = some (.vobj []) ∧
    (Value.vobj []).isUndefinedV = false :=
  ⟨rfl, rfl, rfl⟩

/-- C9 amended: the seeker dependency is delivered as a zero-argument
synchronous callable that purely probes the resolved-beans store of the
state at its invocation time: it returns the value field of the cached
outcome whenever the target name is in the store - including a failed
outcome that carries a partially built value - and the absent sentinel
otherwise; delivering and invoking it never starts or awaits a resolution
of the target, which stays registered and whose creator is not invoked. -/
theorem seeker_probes_cache :
    (∀ (st : Cstate) (name : String) (b : BeanObj),
      lookupA st.beans name = some b → invokeSeeker st name = b.bean) ∧
    (∀ (st : Cstate) (name : String),
      lookupA st.beans name = none → invokeSeeker st name = .vundefined) ∧
    getOutcome seekerScenario "s" = some (.ok (.vseekerOf "t")) ∧
    registrationsHas (afterGet seekerScenario "s") "t" = some true ∧
    callsOf (afterGet seekerScenario "s") = some ["s"] ∧
    seekProbe (afterGet seekerScenario "s") "t" = some .vundefined ∧
    seekProbe (afterGet (afterGet seekerScenario "s") "t") "t" =
      some (.vstr "tv") := by
  refine ⟨?hit, ?miss, rfl, rfl, rfl, rfl, rfl⟩
  · intro st name b h
    simp [invokeSeeker, h]
  · intro st name h
    simp [invokeSeeker, h]

/-- Closed instantiation of the seeker theorem at a concrete cached state
and at the empty container. -/
theorem seeker_probes_cache_witness :
    invokeSeeker wBeansState "w" = Value.vstr "w" ∧
    invokeSeeker emptyContainer "w" = Value.vundefined :=
  ⟨seeker_probes_cache.1 wBeansState "w" wBean rfl,
   seeker_probes_cache.2.1 emptyContainer "w" rfl⟩

/-- C10: a property name with no literal registration whose parent
resolves successfully but lacks the property succeeds with the absent
sentinel `undefined` rather than failing with a missing-bean domain
error, for both dot and bracket addressing; a present property is
delivered as its value. -/
theorem missing_property_yields_undefined :
    getOutcome propMissScenario "a.x" = some (.ok .vundefined) ∧
    isBeanFailure (getOutcome propMissScenario "a.x") = false ∧
    getOutcome propMissScenario "a.y" = some (.ok (.vstr "1")) ∧
    getOutcome propMissScenario "a[x]" = some (.ok .vundefined) ∧
    getOutcome propMissScenario "a[y]" = some (.ok (.vstr "1")) :=
  ⟨rfl, rfl, rfl, rfl, rfl⟩

end MinimalDI
